import Mathlib

/-!
Verification of the health-check aggregator of the `ml-service` component
(`src/ml-service/main.py`).  The core logic is the `health_check` endpoint:
it computes the process uptime, samples CPU / memory / disk metrics,
classifies them into a status (`healthy` / `degraded` / `unhealthy`),
assembles a report, and maps the status to an HTTP status code.

Embedding notes:
* Percentages, times and byte counts are modelled as rationals (`ℚ`);
  Python `round(x, 2)` is modelled as decimal rounding to two places with
  round-half-to-even tie-breaking (`round2` below).
* The ambient inputs of the endpoint (the current wall-clock time, the
  process-wide `start_time`, the two `datetime.utcnow()` calls, the
  `NODE_ENV` variable, and the outcome of the `psutil` sampling calls)
  are passed as explicit parameters.
* The `try`/`except Exception` block is modelled explicitly.  Crucially,
  `fastapi.HTTPException` is a subclass of `Exception`, so the
  `raise HTTPException(503, detail=health_data)` executed inside the `try`
  block for an unhealthy status is caught by the same `except` clause,
  which replaces the health report by an error payload built around
  `str(e)` and re-raises `HTTPException(503, detail=error_response)`.
  The model reproduces this control flow faithfully.
-/

/-- Result of the `psutil` sampling step (lines 50–52 of `main.py`):
`cpu_percent` from `psutil.cpu_percent(interval=1)`, `memory_percent` /
`memory_available` from `psutil.virtual_memory()` (percentage and available
bytes), `disk_percent` / `disk_free` from `psutil.disk_usage('/')`
(percentage and free bytes). -/
structure SystemMetrics where
  cpu_percent : ℚ
  memory_percent : ℚ
  memory_available : ℚ
  disk_percent : ℚ
  disk_free : ℚ
deriving DecidableEq

/-- The nested `system` record of the health report (lines 82–88). -/
structure SystemInfo where
  cpu_percent : ℚ
  memory_percent : ℚ
  memory_available_gb : ℚ
  disk_percent : ℚ
  disk_free_gb : ℚ
deriving DecidableEq

/-- The `service` identity record.  In the success path it carries
`environment` (from `os.getenv("NODE_ENV", "development")`, line 92);
the record built in the `except` branch (lines 109–112) has no
`environment` key, modelled by `none`. -/
structure ServiceInfo where
  name : String
  version : String
  environment : Option String
deriving DecidableEq

/-- The `health_data` dict assembled on the success path (lines 77–97).
`issues` is attached only when non-empty (line 97), modelled by
`Option (List String)` with `none` for the absent key. -/
structure HealthData where
  status : String
  timestamp : String
  uptime_seconds : ℚ
  uptime_hours : ℚ
  system : SystemInfo
  service : ServiceInfo
  issues : Option (List String)
deriving DecidableEq

/-- The `error_response` dict built in the `except` branch (lines 105–113):
status, a fresh timestamp, `str(e)`, and a service record without
`environment`; no `system`, no `issues`. -/
structure ErrorData where
  status : String
  timestamp : String
  error : String
  service : ServiceInfo
deriving DecidableEq

/-- The payload the HTTP layer serializes: either the health report
(returned directly, or attached as the `detail` of an `HTTPException`) or
the error payload from the `except` branch. -/
inductive Payload where
  | report : HealthData → Payload
  | errorReport : ErrorData → Payload
deriving DecidableEq

/-- Whether the payload is the error shape (`error_response`). -/
def Payload.isErrorReport : Payload → Bool
  | .report _ => false
  | .errorReport _ => true

/-- The `status` field, present in both payload shapes. -/
def Payload.statusOf : Payload → String
  | .report h => h.status
  | .errorReport e => e.status

/-- The `service` record, present in both payload shapes. -/
def Payload.serviceOf : Payload → ServiceInfo
  | .report h => h.service
  | .errorReport e => e.service

/-- The `issues` field: only a health report can carry it. -/
def Payload.issuesOf : Payload → Option (List String)
  | .report h => h.issues
  | .errorReport _ => none

/-- The `uptime_seconds` field: only present in a health report. -/
def Payload.uptimeOf : Payload → Option ℚ
  | .report h => some h.uptime_seconds
  | .errorReport _ => none

/-- Round-half-to-even to the nearest integer, the tie-breaking rule of
Python 3's built-in `round`. -/
def roundHalfEven (q : ℚ) : ℤ :=
  let f := ⌊q⌋
  let r := q - (f : ℚ)
  if r < 1 / 2 then f
  else if 1 / 2 < r then f + 1
  else if f % 2 = 0 then f else f + 1

/-- Python `round(x, 2)`: round to two decimal places (half-to-even),
idealized over the rationals. -/
def round2 (q : ℚ) : ℚ := (roundHalfEven (q * 100) : ℚ) / 100

/-- The classification pass of `health_check` (lines 54–75 of `main.py`),
factored out of the endpoint body: start from `("healthy", [])`; each
metric above 90 sets the status to `"degraded"` and appends its message;
afterwards (independently, not an `else`) any metric above 95 overrides
the status to `"unhealthy"`, leaving the accumulated issues untouched.
Returns the final `(status, issues)` pair. -/
def classify (cpu_percent memory_percent disk_percent : ℚ) : String × List String :=
  let s0 : String × List String := ("healthy", [])
  let s1 := if cpu_percent > 90 then ("degraded", s0.2 ++ ["High CPU usage"]) else s0
  let s2 := if memory_percent > 90 then ("degraded", s1.2 ++ ["High memory usage"]) else s1
  let s3 := if disk_percent > 90 then ("degraded", s2.2 ++ ["High disk usage"]) else s2
  if cpu_percent > 95 ∨ memory_percent > 95 ∨ disk_percent > 95 then ("unhealthy", s3.2)
  else s3

/-- Stand-in for Python's rendering of the `health_data` dict inside
`str(e)` when the `HTTPException` carrying it is caught by the blanket
`except` clause.  The exact text of Python's dict repr is immaterial to
every property below; only the fact that the error string wraps the
report (rather than the report being returned) matters. -/
def healthDataStr (h : HealthData) : String :=
  "status=" ++ h.status ++ ", timestamp=" ++ h.timestamp

/-- Python `str()` of a `fastapi.HTTPException`: `"<status_code>: <detail>"`. -/
def httpExceptionStr (statusCode : Nat) (detail : String) : String :=
  toString statusCode ++ ": " ++ detail

/-- The `/health` endpoint, `health_check` (lines 39–116 of `main.py`).

Parameters stand for the ambient inputs: `now` is `time.time()` at the
call, `start_time` the module-level start time, `ts1` the
`datetime.utcnow().isoformat()` taken while building `health_data`
(line 79), `ts2` the one taken in the `except` branch (line 107),
`node_env` the value of `os.getenv("NODE_ENV", "development")`, and
`sample` the outcome of the `psutil` sampling step — `Except.error msg`
when sampling raises a fault whose `str()` is `msg`.

Control flow of the `try`/`except`:
* a sampling fault jumps to the `except` branch, which answers
  `(error_response, 503)`;
* otherwise the report is assembled; if the status is `"unhealthy"` the
  code raises `HTTPException(503, detail=health_data)` — but
  `HTTPException` derives from `Exception`, so this raise is caught by
  the same `except` clause, which discards the report and answers
  `(error_response, 503)` with `error = str(e)`;
* otherwise `health_data` is returned with code 200. -/
def health_check (now start_time : ℚ) (ts1 ts2 node_env : String)
    (sample : Except String SystemMetrics) : Payload × Nat :=
  match sample with
  | .error e =>
    (.errorReport
      { status := "unhealthy"
        timestamp := ts2
        error := e
        service := { name := "ml-service", version := "1.0.0", environment := none } },
      503)
  | .ok m =>
    let uptime_seconds := now - start_time
    let uptime_hours := uptime_seconds / 3600
    let si := classify m.cpu_percent m.memory_percent m.disk_percent
    let status := si.1
    let issues := si.2
    let health_data : HealthData :=
      { status := status
        timestamp := ts1
        uptime_seconds := round2 uptime_seconds
        uptime_hours := round2 uptime_hours
        system :=
          { cpu_percent := m.cpu_percent
            memory_percent := m.memory_percent
            memory_available_gb := round2 (m.memory_available / 1024 ^ 3)
            disk_percent := m.disk_percent
            disk_free_gb := round2 (m.disk_free / 1024 ^ 3) }
        service := { name := "ml-service", version := "1.0.0", environment := some node_env }
        issues := if issues.isEmpty then none else some issues }
    if status = "unhealthy" then
      (.errorReport
        { status := "unhealthy"
          timestamp := ts2
          error := httpExceptionStr 503 (healthDataStr health_data)
          service := { name := "ml-service", version := "1.0.0", environment := none } },
        503)
    else
      (.report health_data, 200)

example :
    (health_check 100 0 "T1" "T2" "development"
      (.ok ⟨96, 10, 2 ^ 30, 10, 2 ^ 30⟩)).2 = 503 := by with_unfolding_all decide

example :
    ((health_check 100 0 "T1" "T2" "development"
      (.ok ⟨10, 20, 2 ^ 30, 30, 2 ^ 30⟩)).1).statusOf = "healthy" := by with_unfolding_all decide

example : (classify 92 10 10).2 = ["High CPU usage"] := by with_unfolding_all decide

example : round2 (1000 / 3600) = 7 / 25 := by with_unfolding_all decide

example :
    List.Sublist (classify 92 10 97).2
      ["High CPU usage", "High memory usage", "High disk usage"] := by
  with_unfolding_all decide

lemma le_roundHalfEven (q : ℚ) : ⌊q⌋ ≤ roundHalfEven q := by
  simp only [roundHalfEven]
  split_ifs <;> omega

lemma roundHalfEven_le (q : ℚ) : roundHalfEven q ≤ ⌊q⌋ + 1 := by
  simp only [roundHalfEven]
  split_ifs <;> omega

lemma roundHalfEven_mono {x y : ℚ} (h : x ≤ y) : roundHalfEven x ≤ roundHalfEven y := by
  rcases lt_or_eq_of_le (Int.floor_mono h) with hf | hf
  · have h1 := roundHalfEven_le x
    have h2 := le_roundHalfEven y
    omega
  · have hr : x - (⌊y⌋ : ℚ) ≤ y - (⌊y⌋ : ℚ) := by linarith
    simp only [roundHalfEven]
    rw [hf]
    split_ifs <;> first | omega | (exfalso; linarith)

lemma round2_mono {x y : ℚ} (h : x ≤ y) : round2 x ≤ round2 y := by
  have h100 : x * 100 ≤ y * 100 := by linarith
  have hz := roundHalfEven_mono h100
  have hc : ((roundHalfEven (x * 100) : ℤ) : ℚ) ≤ ((roundHalfEven (y * 100) : ℤ) : ℚ) := by
    exact_mod_cast hz
  simp only [round2]
  linarith

/-- The issues the spec prescribes for a metric triple: one fixed message per
metric strictly above 90, in the order CPU, memory, disk.  This is the
spec-side yardstick the issues computed by `classify` are compared against. -/
def expectedIssues (cpu mem disk : ℚ) : List String :=
  (if cpu > 90 then ["High CPU usage"] else []) ++
    (if mem > 90 then ["High memory usage"] else []) ++
      (if disk > 90 then ["High disk usage"] else [])

/-- Closed form of `classify`: the status is `"unhealthy"` when some metric
exceeds 95, else `"degraded"` when some metric exceeds 90, else `"healthy"`,
and the issues are exactly `expectedIssues`. -/
lemma classify_eq (cpu mem disk : ℚ) :
    classify cpu mem disk =
      (if cpu > 95 ∨ mem > 95 ∨ disk > 95 then "unhealthy"
        else if cpu > 90 ∨ mem > 90 ∨ disk > 90 then "degraded" else "healthy",
        expectedIssues cpu mem disk) := by
  simp only [classify, expectedIssues]
  split_ifs <;> simp_all
  rcases ‹_ ∨ _› with h | h | h <;> linarith

/-- The `health_data` dict as assembled on the success path of
`health_check` (lines 77–97), as a function of the ambient inputs. -/
def assembledReport (now start_time : ℚ) (ts1 node_env : String) (m : SystemMetrics) :
    HealthData :=
  { status := (classify m.cpu_percent m.memory_percent m.disk_percent).1
    timestamp := ts1
    uptime_seconds := round2 (now - start_time)
    uptime_hours := round2 ((now - start_time) / 3600)
    system :=
      { cpu_percent := m.cpu_percent
        memory_percent := m.memory_percent
        memory_available_gb := round2 (m.memory_available / 1024 ^ 3)
        disk_percent := m.disk_percent
        disk_free_gb := round2 (m.disk_free / 1024 ^ 3) }
    service := { name := "ml-service", version := "1.0.0", environment := some node_env }
    issues :=
      if (classify m.cpu_percent m.memory_percent m.disk_percent).2.isEmpty then none
      else some (classify m.cpu_percent m.memory_percent m.disk_percent).2 }

/-- Unfolding equation for `health_check` when sampling succeeds. -/
lemma health_check_ok_eq (now st : ℚ) (ts1 ts2 env : String) (m : SystemMetrics) :
    health_check now st ts1 ts2 env (.ok m) =
      if (classify m.cpu_percent m.memory_percent m.disk_percent).1 = "unhealthy" then
        (.errorReport
          { status := "unhealthy"
            timestamp := ts2
            error := httpExceptionStr 503 (healthDataStr (assembledReport now st ts1 env m))
            service := { name := "ml-service", version := "1.0.0", environment := none } },
          503)
      else (.report (assembledReport now st ts1 env m), 200) := rfl

/-- C3: if any single metric exceeds 95 then the classified status is
`"unhealthy"` regardless of the other metrics, and the issues list contains
exactly the entries for every metric exceeding 90 — the escalation pass does
not clear or alter the issues accumulated by the 90% checks. -/
theorem escalation_forces_unhealthy_retains_issues
    (cpu mem disk : ℚ) (h : cpu > 95 ∨ mem > 95 ∨ disk > 95) :
    (classify cpu mem disk).1 = "unhealthy" ∧
      (classify cpu mem disk).2 = expectedIssues cpu mem disk := by
  simp only [classify, expectedIssues]
  rw [if_pos h]
  refine ⟨rfl, ?_⟩
  split_ifs <;> simp

/-- C3 witness: the theorem applied at cpu = 96, mem = 92, disk = 10. -/
theorem escalation_forces_unhealthy_retains_issues_witness :
    (classify 96 92 10).1 = "unhealthy" ∧ (classify 96 92 10).2 = expectedIssues 96 92 10 :=
  escalation_forces_unhealthy_retains_issues 96 92 10 (Or.inl (by norm_num))

/-- C6: for every metric triple, the issues list produced by the
classification pass is a sublist (subsequence in order) of
`["High CPU usage", "High memory usage", "High disk usage"]`. -/
theorem issues_sublist_fixed_order (cpu mem disk : ℚ) :
    List.Sublist (classify cpu mem disk).2
      ["High CPU usage", "High memory usage", "High disk usage"] := by
  simp only [classify]
  split_ifs <;> decide

/-- C1: at cpu = 96 (the others low) the classified status is unhealthy, and
the claim expects a 503 response whose body is the HealthReport itself.  The
code does answer 503, but the body is an `error_response` (ErrorReport) with
the accumulated `issues` gone: the `raise HTTPException(503, detail=health_data)`
inside the `try` block is intercepted by the blanket `except Exception`
clause, which rebuilds the payload around `str(e)`. -/
theorem unhealthy_response_body_is_error_report :
    (classify 96 10 10).1 = "unhealthy" ∧
      (health_check 100 0 "T1" "T2" "development"
          (.ok ⟨96, 10, 2 ^ 30, 10, 2 ^ 30⟩)).2 = 503 ∧
      ((health_check 100 0 "T1" "T2" "development"
          (.ok ⟨96, 10, 2 ^ 30, 10, 2 ^ 30⟩)).1).isErrorReport = true ∧
      ((health_check 100 0 "T1" "T2" "development"
          (.ok ⟨96, 10, 2 ^ 30, 10, 2 ^ 30⟩)).1).issuesOf = none := by
  with_unfolding_all decide

/-- C2: a run in which metric sampling succeeds (cpu = 10, mem = 97,
disk = 10) but whose classified status is unhealthy still produces an
ErrorReport payload, contradicting the claim that a sampling fault is the
only source of ErrorReport bodies. -/
theorem error_report_despite_successful_sampling :
    ((health_check 50 0 "T1" "T2" "production"
        (.ok ⟨10, 97, 2 ^ 30, 10, 2 ^ 30⟩)).1).isErrorReport = true := by
  with_unfolding_all decide

/-- C7 counterexample: on a sampling fault the `service` record of the
returned ErrorReport has no `environment` key (the `except` branch builds
only `name` and `version`), refuting the claim that the full static identity
record including `environment` is present. -/
theorem sampling_fault_service_environment_missing :
    (((health_check 100 0 "T1" "T2" "production"
        (.error "disk unreadable")).1).serviceOf.environment).isSome = false := by
  with_unfolding_all decide

/-- C7 amended: whenever metric sampling raises a fault, `health_check`
returns code 503 with an ErrorReport containing status `"unhealthy"`, the
timestamp taken in the `except` branch, the fault's description string, and
a service record with name and version only (no `environment`), while the
`system` and `issues` fields are absent (the payload shape has none). -/
theorem sampling_fault_error_report_shape (now st : ℚ) (ts1 ts2 env msg : String) :
    health_check now st ts1 ts2 env (.error msg) =
      (.errorReport
        { status := "unhealthy"
          timestamp := ts2
          error := msg
          service := { name := "ml-service", version := "1.0.0", environment := none } },
        503) := rfl

/-- C4: with every metric in [0, 90] the response is a HealthReport with
status `"healthy"`, the `issues` field absent (not an empty list), and
response code 200. -/
theorem all_metrics_in_range_healthy
    (now st : ℚ) (ts1 ts2 env : String) (m : SystemMetrics)
    (_hc0 : 0 ≤ m.cpu_percent) (hc : m.cpu_percent ≤ 90)
    (_hm0 : 0 ≤ m.memory_percent) (hm : m.memory_percent ≤ 90)
    (_hd0 : 0 ≤ m.disk_percent) (hd : m.disk_percent ≤ 90) :
    (health_check now st ts1 ts2 env (.ok m)).2 = 200 ∧
      ((health_check now st ts1 ts2 env (.ok m)).1).isErrorReport = false ∧
      ((health_check now st ts1 ts2 env (.ok m)).1).statusOf = "healthy" ∧
      ((health_check now st ts1 ts2 env (.ok m)).1).issuesOf = none := by
  have hc' : ¬(m.cpu_percent > 90) := not_lt.mpr hc
  have hm' : ¬(m.memory_percent > 90) := not_lt.mpr hm
  have hd' : ¬(m.disk_percent > 90) := not_lt.mpr hd
  have h95 : ¬(m.cpu_percent > 95 ∨ m.memory_percent > 95 ∨ m.disk_percent > 95) := by
    push_neg
    exact ⟨by linarith, by linarith, by linarith⟩
  have h90 : ¬(m.cpu_percent > 90 ∨ m.memory_percent > 90 ∨ m.disk_percent > 90) := by
    push_neg
    exact ⟨hc, hm, hd⟩
  have hcl : classify m.cpu_percent m.memory_percent m.disk_percent = ("healthy", []) := by
    rw [classify_eq, if_neg h95, if_neg h90]
    simp [expectedIssues, hc', hm', hd']
  rw [health_check_ok_eq]
  simp [assembledReport, hcl, Payload.statusOf, Payload.issuesOf, Payload.isErrorReport]

/-- C4 witness: the theorem applied at cpu = 10, mem = 20, disk = 30. -/
theorem all_metrics_in_range_healthy_witness :
    (health_check 10 0 "T1" "T2" "development"
        (.ok ⟨10, 20, 2 ^ 30, 30, 2 ^ 30⟩)).2 = 200 ∧
      ((health_check 10 0 "T1" "T2" "development"
          (.ok ⟨10, 20, 2 ^ 30, 30, 2 ^ 30⟩)).1).isErrorReport = false ∧
      ((health_check 10 0 "T1" "T2" "development"
          (.ok ⟨10, 20, 2 ^ 30, 30, 2 ^ 30⟩)).1).statusOf = "healthy" ∧
      ((health_check 10 0 "T1" "T2" "development"
          (.ok ⟨10, 20, 2 ^ 30, 30, 2 ^ 30⟩)).1).issuesOf = none :=
  all_metrics_in_range_healthy 10 0 "T1" "T2" "development" ⟨10, 20, 2 ^ 30, 30, 2 ^ 30⟩
    (by norm_num) (by norm_num) (by norm_num) (by norm_num) (by norm_num) (by norm_num)

/-- C5: when exactly one metric lies in (90, 95] and the other two are at
most 90, the response is a HealthReport with status `"degraded"`, the issues
list holds exactly the one message matching the elevated metric, and the
response code is 200.  The three conjuncts cover the three choices of the
elevated metric. -/
theorem single_degraded_metric_report (now st : ℚ) (ts1 ts2 env : String) (m : SystemMetrics) :
    (90 < m.cpu_percent → m.cpu_percent ≤ 95 → m.memory_percent ≤ 90 → m.disk_percent ≤ 90 →
      (health_check now st ts1 ts2 env (.ok m)).2 = 200 ∧
        ((health_check now st ts1 ts2 env (.ok m)).1).isErrorReport = false ∧
        ((health_check now st ts1 ts2 env (.ok m)).1).statusOf = "degraded" ∧
        ((health_check now st ts1 ts2 env (.ok m)).1).issuesOf = some ["High CPU usage"]) ∧
    (m.cpu_percent ≤ 90 → 90 < m.memory_percent → m.memory_percent ≤ 95 → m.disk_percent ≤ 90 →
      (health_check now st ts1 ts2 env (.ok m)).2 = 200 ∧
        ((health_check now st ts1 ts2 env (.ok m)).1).isErrorReport = false ∧
        ((health_check now st ts1 ts2 env (.ok m)).1).statusOf = "degraded" ∧
        ((health_check now st ts1 ts2 env (.ok m)).1).issuesOf = some ["High memory usage"]) ∧
    (m.cpu_percent ≤ 90 → m.memory_percent ≤ 90 → 90 < m.disk_percent → m.disk_percent ≤ 95 →
      (health_check now st ts1 ts2 env (.ok m)).2 = 200 ∧
        ((health_check now st ts1 ts2 env (.ok m)).1).isErrorReport = false ∧
        ((health_check now st ts1 ts2 env (.ok m)).1).statusOf = "degraded" ∧
        ((health_check now st ts1 ts2 env (.ok m)).1).issuesOf = some ["High disk usage"]) := by
  refine ⟨fun h1 h2 h3 h4 => ?_, fun h1 h2 h3 h4 => ?_, fun h1 h2 h3 h4 => ?_⟩
  · have h95 : ¬(m.cpu_percent > 95 ∨ m.memory_percent > 95 ∨ m.disk_percent > 95) := by
      push_neg
      exact ⟨by linarith, by linarith, by linarith⟩
    have hcl : classify m.cpu_percent m.memory_percent m.disk_percent
        = ("degraded", ["High CPU usage"]) := by
      rw [classify_eq, if_neg h95, if_pos (Or.inl h1)]
      simp [expectedIssues, h1, not_lt.mpr h3, not_lt.mpr h4]
    rw [health_check_ok_eq]
    simp [assembledReport, hcl, Payload.statusOf, Payload.issuesOf, Payload.isErrorReport]
  · have h95 : ¬(m.cpu_percent > 95 ∨ m.memory_percent > 95 ∨ m.disk_percent > 95) := by
      push_neg
      exact ⟨by linarith, by linarith, by linarith⟩
    have hcl : classify m.cpu_percent m.memory_percent m.disk_percent
        = ("degraded", ["High memory usage"]) := by
      rw [classify_eq, if_neg h95, if_pos (Or.inr (Or.inl h2))]
      simp [expectedIssues, h2, not_lt.mpr h1, not_lt.mpr h4]
    rw [health_check_ok_eq]
    simp [assembledReport, hcl, Payload.statusOf, Payload.issuesOf, Payload.isErrorReport]
  · have h95 : ¬(m.cpu_percent > 95 ∨ m.memory_percent > 95 ∨ m.disk_percent > 95) := by
      push_neg
      exact ⟨by linarith, by linarith, by linarith⟩
    have hcl : classify m.cpu_percent m.memory_percent m.disk_percent
        = ("degraded", ["High disk usage"]) := by
      rw [classify_eq, if_neg h95, if_pos (Or.inr (Or.inr h3))]
      simp [expectedIssues, h3, not_lt.mpr h1, not_lt.mpr h2]
    rw [health_check_ok_eq]
    simp [assembledReport, hcl, Payload.statusOf, Payload.issuesOf, Payload.isErrorReport]

/-- C5 witness: the CPU conjunct applied at cpu = 92, mem = 10, disk = 10. -/
theorem single_degraded_metric_report_witness :
    (health_check 5 0 "T1" "T2" "development"
        (.ok ⟨92, 10, 2 ^ 30, 10, 2 ^ 30⟩)).2 = 200 ∧
      ((health_check 5 0 "T1" "T2" "development"
          (.ok ⟨92, 10, 2 ^ 30, 10, 2 ^ 30⟩)).1).isErrorReport = false ∧
      ((health_check 5 0 "T1" "T2" "development"
          (.ok ⟨92, 10, 2 ^ 30, 10, 2 ^ 30⟩)).1).statusOf = "degraded" ∧
      ((health_check 5 0 "T1" "T2" "development"
          (.ok ⟨92, 10, 2 ^ 30, 10, 2 ^ 30⟩)).1).issuesOf = some ["High CPU usage"] :=
  (single_degraded_metric_report 5 0 "T1" "T2" "development" ⟨92, 10, 2 ^ 30, 10, 2 ^ 30⟩).1
    (by norm_num) (by norm_num) (by norm_num) (by norm_num)

/-- Every `uptime_seconds` value carried by a returned HealthReport equals
`round2 (now - start_time)`. -/
lemma uptimeOf_health_check (now st : ℚ) (ts1 ts2 env : String)
    (s : Except String SystemMetrics) (u : ℚ)
    (h : ((health_check now st ts1 ts2 env s).1).uptimeOf = some u) :
    u = round2 (now - st) := by
  match s with
  | .error e => simp [health_check, Payload.uptimeOf] at h
  | .ok m =>
    rw [health_check_ok_eq] at h
    split_ifs at h with hcond
    · simp [Payload.uptimeOf] at h
    · simp [Payload.uptimeOf, assembledReport] at h
      exact h.symm

/-- C8: across two successful calls within one process lifetime (same
`start_time`), if the first call's clock reading is at most the second's,
the reported `uptime_seconds` values are non-decreasing. -/
theorem uptime_monotone (t1 t2 st : ℚ) (a1 b1 e1 a2 b2 e2 : String)
    (s1 s2 : Except String SystemMetrics) (u1 u2 : ℚ)
    (h1 : ((health_check t1 st a1 b1 e1 s1).1).uptimeOf = some u1)
    (h2 : ((health_check t2 st a2 b2 e2 s2).1).uptimeOf = some u2)
    (ht : t1 ≤ t2) : u1 ≤ u2 := by
  rw [uptimeOf_health_check t1 st a1 b1 e1 s1 u1 h1,
    uptimeOf_health_check t2 st a2 b2 e2 s2 u2 h2]
  exact round2_mono (by linarith)

/-- C8 witness: the theorem applied to two concrete calls at clock 10 and
clock 20 with the same start time 0. -/
theorem uptime_monotone_witness :
    ((health_check 10 0 "a" "b" "c" (.ok ⟨10, 20, 2 ^ 30, 30, 2 ^ 30⟩)).1).uptimeOf = some 10 ∧
      ((health_check 20 0 "a" "b" "c" (.ok ⟨10, 20, 2 ^ 30, 30, 2 ^ 30⟩)).1).uptimeOf = some 20 ∧
      (10 : ℚ) ≤ 20 :=
  ⟨by with_unfolding_all decide, by with_unfolding_all decide,
    uptime_monotone 10 20 0 "a" "b" "c" "a" "b" "c"
      (.ok ⟨10, 20, 2 ^ 30, 30, 2 ^ 30⟩) (.ok ⟨10, 20, 2 ^ 30, 30, 2 ^ 30⟩) 10 20
      (by with_unfolding_all decide) (by with_unfolding_all decide) (by norm_num)⟩

/-- C9: the status and issues of the returned payload depend only on the
sampled metric triple — two evaluations with equal (cpu, memory, disk) but
arbitrary different clock values, start times, timestamps, environment
strings, and other sampled quantities agree on both. -/
theorem status_depends_only_on_metrics
    (t1 t2 st1 st2 : ℚ) (a1 b1 e1 a2 b2 e2 : String) (m1 m2 : SystemMetrics)
    (hc : m1.cpu_percent = m2.cpu_percent)
    (hm : m1.memory_percent = m2.memory_percent)
    (hd : m1.disk_percent = m2.disk_percent) :
    ((health_check t1 st1 a1 b1 e1 (.ok m1)).1).statusOf
        = ((health_check t2 st2 a2 b2 e2 (.ok m2)).1).statusOf ∧
      ((health_check t1 st1 a1 b1 e1 (.ok m1)).1).issuesOf
        = ((health_check t2 st2 a2 b2 e2 (.ok m2)).1).issuesOf := by
  have hcl : classify m1.cpu_percent m1.memory_percent m1.disk_percent
      = classify m2.cpu_percent m2.memory_percent m2.disk_percent := by
    rw [hc, hm, hd]
  rw [health_check_ok_eq, health_check_ok_eq]
  by_cases hu : (classify m1.cpu_percent m1.memory_percent m1.disk_percent).1 = "unhealthy"
  · rw [if_pos hu, if_pos (hcl ▸ hu)]
    simp [Payload.statusOf, Payload.issuesOf]
  · rw [if_neg hu, if_neg (hcl ▸ hu)]
    simp [Payload.statusOf, Payload.issuesOf, assembledReport, hcl]

/-- C9 witness: the theorem applied to two calls sharing the metric triple
(92, 10, 10) but differing in every other input. -/
theorem status_depends_only_on_metrics_witness :
    ((health_check 1 0 "x" "y" "development" (.ok ⟨92, 10, 2 ^ 30, 10, 2 ^ 30⟩)).1).statusOf
        = ((health_check 7 3 "u" "v" "production" (.ok ⟨92, 10, 999, 10, 888⟩)).1).statusOf ∧
      ((health_check 1 0 "x" "y" "development" (.ok ⟨92, 10, 2 ^ 30, 10, 2 ^ 30⟩)).1).issuesOf
        = ((health_check 7 3 "u" "v" "production" (.ok ⟨92, 10, 999, 10, 888⟩)).1).issuesOf :=
  status_depends_only_on_metrics 1 7 0 3 "x" "y" "development" "u" "v" "production"
    ⟨92, 10, 2 ^ 30, 10, 2 ^ 30⟩ ⟨92, 10, 999, 10, 888⟩ rfl rfl rfl

/-- C10: every HealthReport produced by `health_check` carries
`uptime_seconds`, `uptime_hours`, `memory_available_gb` and `disk_free_gb`
rounded to two decimal places — with `uptime_hours` rounded from the raw
seconds divided by 3600 — while the three percentages are passed through
unrounded; moreover rounding the hours is in general not the same as
dividing the rounded seconds by 3600 (witnessed at 1000 raw seconds). -/
theorem report_fields_rounding (now st : ℚ) (ts1 ts2 env : String) (m : SystemMetrics)
    (hd : HealthData) (h : (health_check now st ts1 ts2 env (.ok m)).1 = .report hd) :
    hd.uptime_seconds = round2 (now - st) ∧
      hd.uptime_hours = round2 ((now - st) / 3600) ∧
      hd.system.memory_available_gb = round2 (m.memory_available / 1024 ^ 3) ∧
      hd.system.disk_free_gb = round2 (m.disk_free / 1024 ^ 3) ∧
      hd.system.cpu_percent = m.cpu_percent ∧
      hd.system.memory_percent = m.memory_percent ∧
      hd.system.disk_percent = m.disk_percent ∧
      round2 ((1000 : ℚ) / 3600) ≠ round2 1000 / 3600 := by
  rw [health_check_ok_eq] at h
  by_cases hu : (classify m.cpu_percent m.memory_percent m.disk_percent).1 = "unhealthy"
  · rw [if_pos hu] at h
    simp at h
  · rw [if_neg hu] at h
    simp at h
    subst h
    refine ⟨rfl, rfl, rfl, rfl, rfl, rfl, rfl, ?_⟩
    with_unfolding_all decide

set_option maxRecDepth 8192 in
/-- C10 witness: the theorem applied to a concrete healthy call at clock
1000, start time 0, where the report's fields are the concrete rounded
values (0.28 hours from 1000 raw seconds). -/
theorem report_fields_rounding_witness :
    (1000 : ℚ) = round2 (1000 - 0) ∧
      (7 / 25 : ℚ) = round2 ((1000 - 0) / 3600) ∧
      (1 : ℚ) = round2 (2 ^ 30 / 1024 ^ 3) ∧
      (1 : ℚ) = round2 (2 ^ 30 / 1024 ^ 3) ∧
      (10 : ℚ) = 10 ∧
      (20 : ℚ) = 20 ∧
      (30 : ℚ) = 30 ∧
      round2 ((1000 : ℚ) / 3600) ≠ round2 1000 / 3600 :=
  report_fields_rounding 1000 0 "T1" "T2" "development" ⟨10, 20, 2 ^ 30, 30, 2 ^ 30⟩
    { status := "healthy"
      timestamp := "T1"
      uptime_seconds := 1000
      uptime_hours := 7 / 25
      system :=
        { cpu_percent := 10
          memory_percent := 20
          memory_available_gb := 1
          disk_percent := 30
          disk_free_gb := 1 }
      service := { name := "ml-service", version := "1.0.0", environment := some "development" }
      issues := none }
    (by with_unfolding_all decide)
